import Mathlib

/-!
# Shallow embedding of the GPU framebuffer layer (gpu_framebuffer.c)

This file embeds the attachment/binding state machinery of
`source/blender/gpu/intern/gpu_framebuffer.c`:

* `GPUTexture` / `GPURenderBuffer` — render surfaces with a back-reference
  to the framebuffer slot they are attached to.  The texture accessors
  (`GPU_texture_framebuffer_set`, the depth/stencil/width queries) live in
  `gpu_texture.c`, which is not part of this excerpt; their record fields are
  modelled from the spec's RenderSurface data model and from the identical
  renderbuffer accessors that are in the excerpt.
* `GPUFrameBuffer` — four color slots plus a depth slot, for both textures
  and renderbuffers (`colortex`, `depthtex`, `colorrb`, `depthrb`).
* `GPUState` — the heap of live objects plus the process-wide globals:
  `GG.currentfb`, the draw/read buffer selection, the viewport, and a log of
  performed blit rectangles.

Device-side GL calls are modelled by their effect on this state.  A C-level
crash (NULL-pointer dereference, use of a dangling pointer) and a failing
`BLI_assert` are both modelled as `Option.none`: the operation has no
defined result state.  GL object-name allocation (`glGenFramebuffers`,
`glGenRenderbuffers`) is modelled as always succeeding with a fresh nonzero
name, and `glGetError` as returning `GL_NO_ERROR`; device completeness
status is a parameter of the modelled device (`GLDevice.fbStatus`).
-/

/-- A few OpenGL enumeration values used by the embedding. -/
def GL_NONE : Nat := 0

def GL_COLOR_ATTACHMENT0 : Nat := 36064

def GL_TEXTURE_2D : Nat := 3553

def GL_TEXTURE_2D_MULTISAMPLE : Nat := 37120

def GL_FRAMEBUFFER_COMPLETE : Nat := 36053

def GL_COLOR_BUFFER_BIT : Nat := 16384

def GL_DEPTH_BUFFER_BIT : Nat := 256

/-- Association-list lookup: the heap of live GPU objects is a list of
`(id, object)` pairs; the first binding of an id wins. -/
def lookupA {α : Type} : List (Nat × α) → Nat → Option α
  | [], _ => none
  | (k, v) :: r, k' => if k = k' then some v else lookupA r k'

/-- Update the binding of key `k` (appending it if absent). -/
def setk {α : Type} (k : Nat) (v : α) : List (Nat × α) → List (Nat × α)
  | [] => [(k, v)]
  | (k', v') :: r => if k' = k then (k, v) :: r else (k', v') :: setk k v r

/-- Remove every binding of key `k`. -/
def removek {α : Type} (k : Nat) : List (Nat × α) → List (Nat × α)
  | [] => []
  | (k', v') :: r => if k' = k then removek k r else (k', v') :: removek k r

theorem lookupA_setk_self {α : Type} (l : List (Nat × α)) (k : Nat) (v : α) :
    lookupA (setk k v l) k = some v := by
  induction l with
  | nil => simp [setk, lookupA]
  | cons p r ih =>
    obtain ⟨k', v'⟩ := p
    by_cases h : k' = k
    · simp [setk, h, lookupA]
    · simp [setk, h, lookupA, ih]

theorem lookupA_setk_ne {α : Type} (l : List (Nat × α)) (k k' : Nat) (v : α)
    (h : k ≠ k') : lookupA (setk k v l) k' = lookupA l k' := by
  induction l with
  | nil => simp [setk, lookupA, h]
  | cons p r ih =>
    obtain ⟨k₀, v₀⟩ := p
    by_cases h₀ : k₀ = k
    · subst h₀
      simp [setk, lookupA, h]
    · simp [setk, h₀, lookupA, ih]

theorem lookupA_removek {α : Type} (l : List (Nat × α)) (k k' : Nat) :
    lookupA (removek k l) k' = if k = k' then none else lookupA l k' := by
  induction l with
  | nil => simp [removek, lookupA]
  | cons p r ih =>
    obtain ⟨k₀, v₀⟩ := p
    by_cases h₀ : k₀ = k
    · subst h₀
      rw [removek, if_pos rfl, ih]
      by_cases h : k₀ = k'
      · simp [h]
      · simp [lookupA, h]
    · rw [removek, if_neg h₀]
      by_cases h : k₀ = k'
      · have hk : ¬ k = k' := fun he => h₀ (he.symm ▸ h.symm ▸ rfl)
        simp [lookupA, h, hk]
      · simp [lookupA, h, ih]

/-- A GPU texture (`struct GPUTexture`, modelled from the spec's
RenderSurface data model: `gpu_texture.c` is not part of the excerpt).
`fb = some (f, a)` is the back-reference set by
`GPU_texture_framebuffer_set(tex, fb, slot)`; `none` corresponds to the C
state `fb = NULL, fb_attachment = -1`. -/
structure GPUTexture where
  width : Nat
  height : Nat
  depth : Bool
  stencil : Bool
  target : Nat
  fb : Option (Nat × Nat)
  deriving Repr, DecidableEq

/-- A GPU renderbuffer (`struct GPURenderBuffer` from the source). -/
structure GPURenderBuffer where
  width : Nat
  height : Nat
  samples : Nat
  depth : Bool
  fb : Option (Nat × Nat)
  deriving Repr, DecidableEq

/-- The four color attachment slots of a framebuffer
(`GPU_FB_MAX_SLOTS = 4`), each holding the id of an attached surface or
nothing. -/
structure ColorSlots where
  s0 : Option Nat
  s1 : Option Nat
  s2 : Option Nat
  s3 : Option Nat
  deriving Repr, DecidableEq

def ColorSlots.get (cs : ColorSlots) : Nat → Option Nat
  | 0 => cs.s0
  | 1 => cs.s1
  | 2 => cs.s2
  | 3 => cs.s3
  | _ + 4 => none

def ColorSlots.set (cs : ColorSlots) : Nat → Option Nat → ColorSlots
  | 0, v => { cs with s0 := v }
  | 1, v => { cs with s1 := v }
  | 2, v => { cs with s2 := v }
  | 3, v => { cs with s3 := v }
  | _ + 4, _ => cs

def ColorSlots.empty : ColorSlots := ⟨none, none, none, none⟩

theorem ColorSlots.get_set_self (cs : ColorSlots) (s : Nat) (v : Option Nat)
    (h : s < 4) : (cs.set s v).get s = v := by
  match s, h with
  | 0, _ => rfl
  | 1, _ => rfl
  | 2, _ => rfl
  | 3, _ => rfl

theorem ColorSlots.set_set (cs : ColorSlots) (s : Nat) (v w : Option Nat) :
    (cs.set s v).set s w = cs.set s w := by
  match s with
  | 0 => rfl
  | 1 => rfl
  | 2 => rfl
  | 3 => rfl
  | _ + 4 => rfl

theorem ColorSlots.set_eq_self (cs : ColorSlots) (s : Nat) (v : Option Nat)
    (h : cs.get s = v) : cs.set s v = cs := by
  cases cs
  match s with
  | 0 => cases h; rfl
  | 1 => cases h; rfl
  | 2 => cases h; rfl
  | 3 => cases h; rfl
  | _ + 4 => rfl

/-- `struct GPUFrameBuffer`: the GL object name plus four color slots and a
depth slot, for textures and for renderbuffers.  The heap key of a
framebuffer is its GL object name (`object`), which is what
`GG.currentfb` stores. -/
structure GPUFrameBuffer where
  object : Nat
  colortex : ColorSlots
  depthtex : Option Nat
  colorrb : ColorSlots
  depthrb : Option Nat
  deriving Repr, DecidableEq

/-- Record of one `glBlitFramebuffer` rectangle copy. -/
structure BlitRec where
  srcW : Nat
  srcH : Nat
  dstW : Nat
  dstH : Nat
  mask : Nat
  deriving Repr, DecidableEq

/-- The global state: heaps of live textures, renderbuffers and
framebuffers, the `GG.currentfb` global, the current draw-buffer set
(`[]` models `glDrawBuffer(GL_NONE)`), the read buffer, the viewport, the
log of blit copies, and the allocator counter for fresh GL names. -/
structure GPUState where
  textures : List (Nat × GPUTexture)
  renderbuffers : List (Nat × GPURenderBuffer)
  framebuffers : List (Nat × GPUFrameBuffer)
  currentfb : Nat
  drawBuffers : List Nat
  readBuffer : Nat
  viewport : Nat × Nat
  blits : List BlitRec
  nextId : Nat
  deriving Repr, DecidableEq

def lookupTex (st : GPUState) (t : Nat) : Option GPUTexture :=
  lookupA st.textures t

def lookupRb (st : GPUState) (r : Nat) : Option GPURenderBuffer :=
  lookupA st.renderbuffers r

def lookupFb (st : GPUState) (f : Nat) : Option GPUFrameBuffer :=
  lookupA st.framebuffers f

/-- `GPU_framebuffer_create`: allocates a fresh nonzero GL name (name
generation is modelled as always succeeding, so the `!fb->object` failure
path is unreachable), registers an empty framebuffer, and clears the
read/draw buffer selection while the new framebuffer is temporarily bound
(the temporary `glBindFramebuffer` pair in the source does not update
`GG.currentfb`). -/
def GPU_framebuffer_create (st : GPUState) : Nat × GPUState :=
  let obj := st.nextId + 1
  let fb : GPUFrameBuffer :=
    { object := obj, colortex := ColorSlots.empty, depthtex := none
      colorrb := ColorSlots.empty, depthrb := none }
  (obj, { st with framebuffers := (obj, fb) :: st.framebuffers,
                  nextId := st.nextId + 1,
                  readBuffer := GL_NONE, drawBuffers := [] })

/-- `GPU_framebuffer_texture_attach_target`: rejects `slot >= 4`
(returning `false` with nothing touched), binds the framebuffer (updating
`GG.currentfb`), stores the texture in the depth slot when it is a
depth/depth-stencil texture and in `colortex[slot]` otherwise, and sets
the texture's back-reference to `(fb, slot)` in both cases.  The
device-level `glFramebufferTexture` call and the debug-only feedback-loop
warning have no modelled state effect. -/
def GPU_framebuffer_texture_attach_target (st : GPUState) (fbId texId : Nat)
    (_target slot _mip : Nat) : Option (Bool × GPUState) :=
  if 4 ≤ slot then some (false, st)
  else
    match lookupFb st fbId with
    | none => none
    | some fb =>
      let st := { st with currentfb := fb.object }
      match lookupTex st texId with
      | none => none
      | some tex =>
        let fb' := if tex.depth then { fb with depthtex := some texId }
                   else { fb with colortex := fb.colortex.set slot (some texId) }
        let tex' := { tex with fb := some (fbId, slot) }
        some (true, { st with framebuffers := setk fbId fb' st.framebuffers,
                              textures := setk texId tex' st.textures })

/-- `GPU_framebuffer_texture_attach`: reads `GPU_texture_target(tex)`
before delegating; a NULL texture pointer is therefore dereferenced here,
before any slot validation. -/
def GPU_framebuffer_texture_attach (st : GPUState) (fbId : Nat)
    (texId? : Option Nat) (slot mip : Nat) : Option (Bool × GPUState) :=
  match texId? with
  | none => none
  | some texId =>
    match lookupTex st texId with
    | none => none
    | some tex => GPU_framebuffer_texture_attach_target st fbId texId tex.target slot mip

/-- `GPU_framebuffer_texture_detach_target`: a no-op when the texture has
no back-reference; otherwise re-binds the owning framebuffer if it is not
current, clears the depth slot for a depth/depth-stencil texture (the
recorded attachment index is not consulted), and for a color texture
asserts `fb->colortex[fb_attachment] == tex` (a failing `BLI_assert` is
modelled as `none`) and clears that color slot; finally clears the
texture's back-reference. -/
def GPU_framebuffer_texture_detach_target (st : GPUState) (texId _target : Nat) :
    Option GPUState :=
  match lookupTex st texId with
  | none => none
  | some tex =>
    match tex.fb with
    | none => some st
    | some (fbId, fb_attachment) =>
      match lookupFb st fbId with
      | none => none
      | some fb =>
        -- the source re-binds only `if (GG.currentfb != fb->object)`; the guard
        -- merely skips a redundant device call, the tracked state after it is
        -- `GG.currentfb = fb->object` either way
        let st := { st with currentfb := fb.object }
        let fb? : Option GPUFrameBuffer :=
          if tex.stencil ∧ tex.depth then some { fb with depthtex := none }
          else if tex.depth then some { fb with depthtex := none }
          else if fb.colortex.get fb_attachment = some texId then
            some { fb with colortex := fb.colortex.set fb_attachment none }
          else none
        match fb? with
        | none => none
        | some fb' =>
          some { st with framebuffers := setk fbId fb' st.framebuffers,
                         textures := setk texId { tex with fb := none } st.textures }

/-- `GPU_framebuffer_texture_detach`: reads `GPU_texture_target(tex)` and
delegates. -/
def GPU_framebuffer_texture_detach (st : GPUState) (texId : Nat) : Option GPUState :=
  match lookupTex st texId with
  | none => none
  | some tex => GPU_framebuffer_texture_detach_target st texId tex.target

/-- `GPU_framebuffer_renderbuffer_attach`: rejects `slot >= 4` (returning
`0`, i.e. `false`, with nothing touched), binds the framebuffer, stores
the renderbuffer in the depth or color slot according to its depth flag
and sets its back-reference.  `glGetError` is modelled as `GL_NO_ERROR`,
so the `GL_INVALID_OPERATION` bail-out path cannot occur. -/
def GPU_framebuffer_renderbuffer_attach (st : GPUState) (fbId rbId slot : Nat) :
    Option (Bool × GPUState) :=
  if 4 ≤ slot then some (false, st)
  else
    match lookupRb st rbId with
    | none => none
    | some rb =>
      match lookupFb st fbId with
      | none => none
      | some fb =>
        let st := { st with currentfb := fb.object }
        let fb' := if rb.depth then { fb with depthrb := some rbId }
                   else { fb with colorrb := fb.colorrb.set slot (some rbId) }
        let rb' := { rb with fb := some (fbId, slot) }
        some (true, { st with framebuffers := setk fbId fb' st.framebuffers,
                              renderbuffers := setk rbId rb' st.renderbuffers })

/-- `GPU_framebuffer_renderbuffer_detach`: mirrors the texture detach,
with the `BLI_assert(fb->colorrb[fb_attachment] == rb)` in the color
branch. -/
def GPU_framebuffer_renderbuffer_detach (st : GPUState) (rbId : Nat) :
    Option GPUState :=
  match lookupRb st rbId with
  | none => none
  | some rb =>
    match rb.fb with
    | none => some st
    | some (fbId, fb_attachment) =>
      match lookupFb st fbId with
      | none => none
      | some fb =>
        -- conditional re-bind, as in the texture detach: same tracked state
        let st := { st with currentfb := fb.object }
        let fb? : Option GPUFrameBuffer :=
          if rb.depth then some { fb with depthrb := none }
          else if fb.colorrb.get fb_attachment = some rbId then
            some { fb with colorrb := fb.colorrb.set fb_attachment none }
          else none
        match fb? with
        | none => none
        | some fb' =>
          some { st with framebuffers := setk fbId fb' st.framebuffers,
                         renderbuffers := setk rbId { rb with fb := none } st.renderbuffers }

/-- The occupied color slots of a framebuffer in ascending slot order, as
collected by the `for (i = 0; i < 4; i++)` loops in the source. -/
def occupiedColor (cs : ColorSlots) : List (Nat × Nat) :=
  (match cs.s0 with | some t => [(0, t)] | none => []) ++
  (match cs.s1 with | some t => [(1, t)] | none => []) ++
  (match cs.s2 with | some t => [(2, t)] | none => []) ++
  (match cs.s3 with | some t => [(3, t)] | none => [])

/-- `GPU_framebuffer_bind`: collects the occupied color slots; with none
occupied it selects no draw/read buffer and takes the viewport source from
`fb->depthtex` (dereferencing NULL when there is no depth texture);
otherwise it sets the draw-buffer list to the occupied slots in ascending
order, the read buffer to the first occupied slot, and the viewport
source to the texture of the *last* occupied slot (the loop variable `tex`
is overwritten on every occupied slot).  `GG.currentfb` is updated. -/
def GPU_framebuffer_bind (st : GPUState) (fbId : Nat) : Option GPUState :=
  match lookupFb st fbId with
  | none => none
  | some fb =>
    let st := { st with currentfb := fb.object }
    match occupiedColor fb.colortex with
    | [] =>
      match fb.depthtex with
      | none => none
      | some d =>
        match lookupTex st d with
        | none => none
        | some dtex =>
          some { st with drawBuffers := [], readBuffer := GL_NONE,
                         viewport := (dtex.width, dtex.height) }
    | p :: rest =>
      let last := (p :: rest).getLast (List.cons_ne_nil p rest)
      match lookupTex st last.2 with
      | none => none
      | some ltex =>
        some { st with
                 drawBuffers := (p :: rest).map (fun q => GL_COLOR_ATTACHMENT0 + q.1),
                 readBuffer := GL_COLOR_ATTACHMENT0 + p.1,
                 viewport := (ltex.width, ltex.height) }

/-- `GPU_framebuffer_bind_simple`. -/
def GPU_framebuffer_bind_simple (st : GPUState) (fbId : Nat) : Option GPUState :=
  match lookupFb st fbId with
  | none => none
  | some fb =>
    some { st with drawBuffers := [GL_COLOR_ATTACHMENT0],
                   readBuffer := GL_COLOR_ATTACHMENT0, currentfb := fb.object }

/-- `GPU_framebuffer_restore`. -/
def GPU_framebuffer_restore (st : GPUState) : GPUState :=
  if st.currentfb ≠ 0 then { st with currentfb := 0 } else st

/-- `GPU_framebuffer_bound`. -/
def GPU_framebuffer_bound (st : GPUState) (fbId : Nat) : Option Bool :=
  match lookupFb st fbId with
  | none => none
  | some fb => some (fb.object = st.currentfb)

/-- One conditional detach step of `GPU_framebuffer_free`: the C loop body
`if (fb->colortex[i]) GPU_framebuffer_texture_detach(fb->colortex[i])`,
re-reading the live framebuffer record as the source reads the mutated
`fb->...` fields. -/
def freeStepTex (fbId : Nat) (sel : GPUFrameBuffer → Option Nat) (st : GPUState) :
    Option GPUState :=
  match lookupFb st fbId with
  | none => none
  | some fb =>
    match sel fb with
    | none => some st
    | some t => GPU_framebuffer_texture_detach st t

/-- The renderbuffer analogue of `freeStepTex`. -/
def freeStepRb (fbId : Nat) (sel : GPUFrameBuffer → Option Nat) (st : GPUState) :
    Option GPUState :=
  match lookupFb st fbId with
  | none => none
  | some fb =>
    match sel fb with
    | none => some st
    | some r => GPU_framebuffer_renderbuffer_detach st r

/-- `GPU_framebuffer_free`: force-detaches the depth texture, then the
occupied color texture slots in order (the `i < GPU_FB_MAX_SLOTS` loop is
unrolled), then the depth renderbuffer, then the occupied color
renderbuffer slots; finally deletes the GL object (always nonzero here),
removes the framebuffer from the heap (`MEM_freeN`) and, when
`GG.currentfb` equals the freed object name at that point, resets it to
0. -/
def GPU_framebuffer_free (st0 : GPUState) (fbId : Nat) : Option GPUState :=
  Option.bind (freeStepTex fbId GPUFrameBuffer.depthtex st0) (fun st1 =>
  Option.bind (freeStepTex fbId (fun fb => fb.colortex.s0) st1) (fun st2 =>
  Option.bind (freeStepTex fbId (fun fb => fb.colortex.s1) st2) (fun st3 =>
  Option.bind (freeStepTex fbId (fun fb => fb.colortex.s2) st3) (fun st4 =>
  Option.bind (freeStepTex fbId (fun fb => fb.colortex.s3) st4) (fun st5 =>
  Option.bind (freeStepRb fbId GPUFrameBuffer.depthrb st5) (fun st6 =>
  Option.bind (freeStepRb fbId (fun fb => fb.colorrb.s0) st6) (fun st7 =>
  Option.bind (freeStepRb fbId (fun fb => fb.colorrb.s1) st7) (fun st8 =>
  Option.bind (freeStepRb fbId (fun fb => fb.colorrb.s2) st8) (fun st9 =>
  Option.bind (freeStepRb fbId (fun fb => fb.colorrb.s3) st9) (fun st10 =>
  match lookupFb st10 fbId with
  | none => none
  | some fb =>
    let st11 : GPUState := { st10 with framebuffers := removek fbId st10.framebuffers }
    some (if fb.object ≠ 0 ∧ st11.currentfb = fb.object
          then { st11 with currentfb := 0 } else st11)))))))))))

/-- The modelled graphics device: the three GLEW capability flags consulted
by `GPU_offscreen_create` and the completeness status returned by
`glCheckFramebufferStatus`. -/
structure GLDevice where
  ext_framebuffer_multisample : Bool
  arb_texture_multisample : Bool
  ext_framebuffer_blit : Bool
  fbStatus : Nat
  deriving Repr, DecidableEq

/-- `GPU_framebuffer_check_valid`: binds the framebuffer (updating
`GG.currentfb`), queries the completeness status and, when it is not
`GL_FRAMEBUFFER_COMPLETE`, restores the default binding and reports
failure. -/
def GPU_framebuffer_check_valid (dev : GLDevice) (st : GPUState) (fbId : Nat) :
    Option (Bool × GPUState) :=
  match lookupFb st fbId with
  | none => none
  | some fb =>
    let st := { st with currentfb := fb.object }
    if dev.fbStatus ≠ GL_FRAMEBUFFER_COMPLETE then
      some (false, GPU_framebuffer_restore st)
    else some (true, st)

/-- `GPU_renderbuffer_create`: name generation is modelled as always
succeeding with a fresh name, so the failure path is unreachable; the
record carries the spec-relevant fields (the storage format selection has
no further modelled effect). -/
def GPU_renderbuffer_create (st : GPUState) (width height samples : Nat)
    (isDepth : Bool) : Nat × GPUState :=
  let rbId := st.nextId + 1
  let rb : GPURenderBuffer :=
    { width := width, height := height, samples := samples, depth := isDepth, fb := none }
  (rbId, { st with renderbuffers := (rbId, rb) :: st.renderbuffers, nextId := st.nextId + 1 })

/-- `GPU_renderbuffer_free`: deletes the GL name and frees the record. -/
def GPU_renderbuffer_free (st : GPUState) (rbId : Nat) : Option GPUState :=
  match lookupRb st rbId with
  | none => none
  | some _ => some { st with renderbuffers := removek rbId st.renderbuffers }

/-- Modelled from the spec: `GPU_texture_create_2D_custom` (in
`gpu_texture.c`, not part of the excerpt) creates a sampleable color
texture of the given size and sample count; a multisample count selects
the `GL_TEXTURE_2D_MULTISAMPLE` target.  Creation is modelled as always
succeeding. -/
def GPU_texture_create_2D_custom (st : GPUState) (width height samples : Nat) :
    Nat × GPUState :=
  let texId := st.nextId + 1
  let tex : GPUTexture :=
    { width := width, height := height, depth := false, stencil := false
      target := if samples ≠ 0 then GL_TEXTURE_2D_MULTISAMPLE else GL_TEXTURE_2D
      fb := none }
  (texId, { st with textures := (texId, tex) :: st.textures, nextId := st.nextId + 1 })

/-- Modelled from the spec: `GPU_texture_create_depth_multisample` (in
`gpu_texture.c`, not part of the excerpt) creates a depth texture of the
given size and sample count. -/
def GPU_texture_create_depth_multisample (st : GPUState) (width height samples : Nat) :
    Nat × GPUState :=
  let texId := st.nextId + 1
  let tex : GPUTexture :=
    { width := width, height := height, depth := true, stencil := false
      target := if samples ≠ 0 then GL_TEXTURE_2D_MULTISAMPLE else GL_TEXTURE_2D
      fb := none }
  (texId, { st with textures := (texId, tex) :: st.textures, nextId := st.nextId + 1 })

/-- Modelled from the spec: `GPU_texture_free` (in `gpu_texture.c`, not
part of the excerpt) force-detaches the texture from its framebuffer when
it is still attached, then frees it. -/
def GPU_texture_free (st : GPUState) (texId : Nat) : Option GPUState := do
  let tex ← lookupTex st texId
  let st ← if tex.fb.isSome then GPU_framebuffer_texture_detach st texId else some st
  some { st with textures := removek texId st.textures }

/-- `struct GPUOffScreen`: the internal framebuffer, the optionally owned
color/depth textures or renderbuffers, and the (possibly clamped) sample
count. -/
structure GPUOffScreen where
  fb : Option Nat
  color : Option Nat
  depth : Option Nat
  rbcolor : Option Nat
  rbdepth : Option Nat
  samples : Nat
  deriving Repr, DecidableEq

/-- The `mode` flag bits of `GPU_offscreen_create`
(`GPU_OFFSCREEN_RENDERBUFFER_COLOR`, `GPU_OFFSCREEN_RENDERBUFFER_DEPTH`,
`GPU_OFFSCREEN_DEPTH_COMPARE`) as a record of Booleans. -/
structure OffscreenMode where
  rbColor : Bool
  rbDepth : Bool
  depthCompare : Bool
  deriving Repr, DecidableEq

/-- `GPU_offscreen_free`: frees the framebuffer (which force-detaches all
attachments), then the owned color and depth textures, then the owned
renderbuffers. -/
def GPU_offscreen_free (st : GPUState) (ofs : GPUOffScreen) : Option GPUState := do
  let st ← match ofs.fb with
           | none => some st
           | some f => GPU_framebuffer_free st f
  let st ← match ofs.color with
           | none => some st
           | some t => GPU_texture_free st t
  let st ← match ofs.depth with
           | none => some st
           | some t => GPU_texture_free st t
  let st ← match ofs.rbcolor with
           | none => some st
           | some r => GPU_renderbuffer_free st r
  let st ← match ofs.rbdepth with
           | none => some st
           | some r => GPU_renderbuffer_free st r
  some st

/-- The multisample capability clamp of `GPU_offscreen_create`: a nonzero
request is forced to 0 when `GLEW_EXT_framebuffer_multisample` is absent,
or `GLEW_ARB_texture_multisample` is absent while either attachment is not
renderbuffer-backed, or `GLEW_EXT_framebuffer_blit` is absent. -/
def gpu_offscreen_clamp_samples (dev : GLDevice) (mode : OffscreenMode)
    (samples : Nat) : Nat :=
  if samples ≠ 0 then
    if (!dev.ext_framebuffer_multisample ||
        (!dev.arb_texture_multisample && (!mode.rbColor || !mode.rbDepth)) ||
        !dev.ext_framebuffer_blit) = true
    then 0 else samples
  else samples

/-- `GPU_offscreen_create`, step 3: the trailing
`GPU_framebuffer_check_valid` + `GPU_framebuffer_restore` sequence ("check
validity at the very end"); an incomplete status unwinds via
`GPU_offscreen_free` and reports NULL. -/
def GPU_offscreen_create_finish (dev : GLDevice) (st : GPUState)
    (fbId : Nat) (ofs : GPUOffScreen) : Option (Option GPUOffScreen × GPUState) :=
  match GPU_framebuffer_check_valid dev st fbId with
  | none => none
  | some (ok, st) =>
    if ok then some (some ofs, GPU_framebuffer_restore st)
    else (GPU_offscreen_free st ofs).map (fun st => (none, st))

/-- `GPU_offscreen_create`, step 2: the depth attachment.  In the
renderbuffer mode a depth renderbuffer is created and attached at slot 0;
in the texture mode a depth texture is created, but the source then
attaches `ofs->color` to the framebuffer, not the depth texture just
created. -/
def GPU_offscreen_create_depth (dev : GLDevice) (st : GPUState) (fbId : Nat)
    (ofs : GPUOffScreen) (width height samples : Nat) (mode : OffscreenMode) :
    Option (Option GPUOffScreen × GPUState) :=
  if mode.rbDepth then
    let (rbId, st) := GPU_renderbuffer_create st width height samples true
    let ofs := { ofs with rbdepth := some rbId }
    match GPU_framebuffer_renderbuffer_attach st fbId rbId 0 with
    | none => none
    | some (ok, st) =>
      if ok then GPU_offscreen_create_finish dev st fbId ofs
      else (GPU_offscreen_free st ofs).map (fun st => (none, st))
  else
    let (texId, st) := GPU_texture_create_depth_multisample st width height samples
    let ofs := { ofs with depth := some texId }
    match GPU_framebuffer_texture_attach st fbId ofs.color 0 0 with
    | none => none
    | some (ok, st) =>
      if ok then GPU_offscreen_create_finish dev st fbId ofs
      else (GPU_offscreen_free st ofs).map (fun st => (none, st))

/-- The body of `GPU_offscreen_create` after the sample clamp, step 1: the
framebuffer allocation and the color attachment.  In the renderbuffer mode
a color renderbuffer is created and attached at slot 0; in the texture
mode a color texture is created, but the source then passes `ofs->depth`
— still NULL at this point — to `GPU_framebuffer_texture_attach`, a NULL
dereference (modelled as `none`). -/
def GPU_offscreen_create_body (dev : GLDevice) (st : GPUState)
    (width height samples : Nat) (mode : OffscreenMode) :
    Option (Option GPUOffScreen × GPUState) :=
  let (fbId, st) := GPU_framebuffer_create st
  let ofs : GPUOffScreen :=
    { fb := some fbId, color := none, depth := none, rbcolor := none, rbdepth := none
      samples := samples }
  if mode.rbColor then
    let (rbId, st) := GPU_renderbuffer_create st width height samples false
    let ofs := { ofs with rbcolor := some rbId }
    match GPU_framebuffer_renderbuffer_attach st fbId rbId 0 with
    | none => none
    | some (ok, st) =>
      if ok then GPU_offscreen_create_depth dev st fbId ofs width height samples mode
      else (GPU_offscreen_free st ofs).map (fun st => (none, st))
  else
    let (texId, st) := GPU_texture_create_2D_custom st width height samples
    let ofs := { ofs with color := some texId }
    match GPU_framebuffer_texture_attach st fbId ofs.depth 0 0 with
    | none => none
    | some (ok, st) =>
      if ok then GPU_offscreen_create_depth dev st fbId ofs width height samples mode
      else (GPU_offscreen_free st ofs).map (fun st => (none, st))

/-- `GPU_offscreen_create`: clamps the sample count for missing device
capabilities, then runs the allocation/attach/checkComplete sequence. -/
def GPU_offscreen_create (dev : GLDevice) (st : GPUState)
    (width height samples : Nat) (mode : OffscreenMode) :
    Option (Option GPUOffScreen × GPUState) :=
  GPU_offscreen_create_body dev st width height
    (gpu_offscreen_clamp_samples dev mode samples) mode

/-- `GPU_offscreen_width`: the width of the color texture, else of the
color renderbuffer, else 0 ("should never happen"). -/
def GPU_offscreen_width (st : GPUState) (ofs : GPUOffScreen) : Option Nat :=
  match ofs.color with
  | some t => (lookupTex st t).map GPUTexture.width
  | none =>
    match ofs.rbcolor with
    | some r => (lookupRb st r).map GPURenderBuffer.width
    | none => some 0

/-- `GPU_offscreen_height`. -/
def GPU_offscreen_height (st : GPUState) (ofs : GPUOffScreen) : Option Nat :=
  match ofs.color with
  | some t => (lookupTex st t).map GPUTexture.height
  | none =>
    match ofs.rbcolor with
    | some r => (lookupRb st r).map GPURenderBuffer.height
    | none => some 0

/-- `GPU_offscreen_samples`. -/
def GPU_offscreen_samples (ofs : GPUOffScreen) : Nat := ofs.samples

/-- The buffer mask assembled by `GPU_offscreen_blit` from its two flags. -/
def blitMask (color depth : Bool) : Nat :=
  (if color then GL_COLOR_BUFFER_BIT else 0) |||
  (if depth then GL_DEPTH_BUFFER_BIT else 0)

/-- `GPU_offscreen_blit`: `BLI_assert(color || depth)` (a failing assert is
modelled as `none`, before anything is copied); binds src/dst as the
read/draw targets (device-side; `GG.currentfb` is not updated by these),
selects attachment 0 for draw and read, copies the rectangle sized to the
minimum of the two contexts' widths and heights, and finally calls
`GPU_framebuffer_bind_simple(dstofs->fb)`, leaving the destination's own
framebuffer recorded as currently bound. -/
def GPU_offscreen_blit (st : GPUState) (srcofs dstofs : GPUOffScreen)
    (color depth : Bool) : Option GPUState := do
  if (color || depth) = true then
    let srcFbId ← srcofs.fb
    let dstFbId ← dstofs.fb
    let _ ← lookupFb st srcFbId
    let _ ← lookupFb st dstFbId
    let st := { st with drawBuffers := [GL_COLOR_ATTACHMENT0],
                        readBuffer := GL_COLOR_ATTACHMENT0 }
    let sh ← GPU_offscreen_height st srcofs
    let dh ← GPU_offscreen_height st dstofs
    let height := Nat.min sh dh
    let sw ← GPU_offscreen_width st srcofs
    let dw ← GPU_offscreen_width st dstofs
    let width := Nat.min sw dw
    let mask := blitMask color depth
    let st := { st with blits :=
      { srcW := width, srcH := height, dstW := width, dstH := height, mask := mask } :: st.blits }
    GPU_framebuffer_bind_simple st dstFbId
  else none

/-! ## Concrete fixtures used by witnesses and counterexamples -/

/-- An empty framebuffer with GL name `obj`. -/
def emptyFB (obj : Nat) : GPUFrameBuffer :=
  { object := obj, colortex := ColorSlots.empty, depthtex := none
    colorrb := ColorSlots.empty, depthrb := none }

/-- A color texture fixture. -/
def texC (w h : Nat) (fbRef : Option (Nat × Nat)) : GPUTexture :=
  { width := w, height := h, depth := false, stencil := false
    target := GL_TEXTURE_2D, fb := fbRef }

/-- A depth texture fixture. -/
def texD (w h : Nat) (fbRef : Option (Nat × Nat)) : GPUTexture :=
  { width := w, height := h, depth := true, stencil := false
    target := GL_TEXTURE_2D, fb := fbRef }

/-- A base state with given heaps and bound framebuffer. -/
def mkState (texs : List (Nat × GPUTexture)) (rbs : List (Nat × GPURenderBuffer))
    (fbs : List (Nat × GPUFrameBuffer)) (cur : Nat) : GPUState :=
  { textures := texs, renderbuffers := rbs, framebuffers := fbs, currentfb := cur,
    drawBuffers := [], readBuffer := GL_NONE, viewport := (0, 0), blits := [], nextId := 100 }

/-! ## C6: attaching at a slot index `≥ 4` fails and changes nothing -/

/-- C6: for every state, framebuffer, surface, mip level and slot index
with `slot ≥ 4` (`GPU_FB_MAX_SLOTS`), both
`GPU_framebuffer_texture_attach_target` and
`GPU_framebuffer_renderbuffer_attach` report failure and return with the
entire state — in particular the target's attachment slots and the
surface's back-reference — completely unchanged. -/
theorem attach_invalid_slot_noop (st : GPUState) (fbId texId rbId target slot mip : Nat)
    (h : 4 ≤ slot) :
    GPU_framebuffer_texture_attach_target st fbId texId target slot mip
        = some (false, st) ∧
    GPU_framebuffer_renderbuffer_attach st fbId rbId slot = some (false, st) := by
  constructor
  · simp [GPU_framebuffer_texture_attach_target, h]
  · simp [GPU_framebuffer_renderbuffer_attach, h]

theorem attach_invalid_slot_noop_witness :
    GPU_framebuffer_texture_attach_target (mkState [] [] [] 0) 7 1 GL_TEXTURE_2D 4 0
        = some (false, mkState [] [] [] 0) ∧
    GPU_framebuffer_renderbuffer_attach (mkState [] [] [] 0) 7 2 4
        = some (false, mkState [] [] [] 0) :=
  attach_invalid_slot_noop (mkState [] [] [] 0) 7 1 2 GL_TEXTURE_2D 4 0 (by decide)

/-! ## C10: a depth texture goes to the depth slot, whatever the slot
argument says, but the slot argument is recorded in the back-reference -/

/-- C10: for every depth (or depth-stencil) texture and slot `s < 4`,
`GPU_framebuffer_texture_attach_target` stores the texture in the single
depth slot and leaves all four color slots unchanged (the result record
differs from the original framebuffer only in `depthtex`), while the
texture's back-reference attachment index is recorded as `s`; the
subsequent detach ignores that recorded index and clears only the depth
slot. -/
theorem depth_attach_ignores_slot (st : GPUState) (fbId texId target slot mip : Nat)
    (fb : GPUFrameBuffer) (tex : GPUTexture)
    (hfb : lookupFb st fbId = some fb)
    (htex : lookupTex st texId = some tex)
    (hdepth : tex.depth = true)
    (hslot : slot < 4) :
    ∃ st1, GPU_framebuffer_texture_attach_target st fbId texId target slot mip
        = some (true, st1) ∧
      lookupFb st1 fbId = some { fb with depthtex := some texId } ∧
      lookupTex st1 texId = some { tex with fb := some (fbId, slot) } ∧
      ∃ st2, GPU_framebuffer_texture_detach_target st1 texId target = some st2 ∧
        lookupFb st2 fbId = some { fb with depthtex := none } ∧
        lookupTex st2 texId = some { tex with fb := none } := by
  have h4 : ¬ 4 ≤ slot := by omega
  simp only [lookupFb, lookupTex] at hfb htex
  refine ⟨{ st with currentfb := fb.object,
                    framebuffers := setk fbId { fb with depthtex := some texId } st.framebuffers,
                    textures := setk texId { tex with fb := some (fbId, slot) } st.textures },
    ?_, ?_, ?_, ?_⟩
  · simp [GPU_framebuffer_texture_attach_target, if_neg h4, lookupFb, lookupTex,
      hfb, htex, hdepth]
  · simp [lookupFb, lookupA_setk_self]
  · simp [lookupTex, lookupA_setk_self]
  · refine ⟨{ st with currentfb := fb.object,
                      framebuffers := setk fbId { fb with depthtex := none }
                        (setk fbId { fb with depthtex := some texId } st.framebuffers),
                      textures := setk texId { tex with fb := none }
                        (setk texId { tex with fb := some (fbId, slot) } st.textures) },
      ?_, ?_, ?_⟩
    · cases hst : tex.stencil <;>
        simp [GPU_framebuffer_texture_detach_target, lookupTex, lookupFb,
          lookupA_setk_self, hdepth, hst]
    · simp [lookupFb, lookupA_setk_self]
    · simp [lookupTex, lookupA_setk_self]

theorem depth_attach_ignores_slot_witness :
    ∃ st1, GPU_framebuffer_texture_attach_target
        (mkState [(1, texD 8 8 none)] [] [(7, emptyFB 7)] 0) 7 1 GL_TEXTURE_2D 3 0
        = some (true, st1) ∧
      lookupFb st1 7 = some { emptyFB 7 with depthtex := some 1 } ∧
      lookupTex st1 1 = some { texD 8 8 none with fb := some (7, 3) } ∧
      ∃ st2, GPU_framebuffer_texture_detach_target st1 1 GL_TEXTURE_2D = some st2 ∧
        lookupFb st2 7 = some { emptyFB 7 with depthtex := none } ∧
        lookupTex st2 1 = some { texD 8 8 none with fb := none } :=
  depth_attach_ignores_slot (mkState [(1, texD 8 8 none)] [] [(7, emptyFB 7)] 0)
    7 1 GL_TEXTURE_2D 3 0 (emptyFB 7) (texD 8 8 none)
    (by decide) (by decide) (by decide) (by decide)

/-! ## C7: attach followed by detach is a round trip -/

/-- C7: for every surface not currently attached anywhere and every
framebuffer whose corresponding slot (the color slot `slot` for a color
texture, the depth slot for a depth texture) is empty, attaching at a
valid slot and then detaching restores the framebuffer's attachment
record and the texture's back-reference exactly to their prior (empty)
values. -/
theorem attach_detach_roundtrip (st : GPUState) (fbId texId target slot mip : Nat)
    (fb : GPUFrameBuffer) (tex : GPUTexture)
    (hfb : lookupFb st fbId = some fb)
    (htex : lookupTex st texId = some tex)
    (hun : tex.fb = none)
    (hslot : slot < 4)
    (hempty : if tex.depth then fb.depthtex = none else fb.colortex.get slot = none) :
    ∃ st1, GPU_framebuffer_texture_attach_target st fbId texId target slot mip
        = some (true, st1) ∧
      ∃ st2, GPU_framebuffer_texture_detach_target st1 texId target = some st2 ∧
        lookupFb st2 fbId = some fb ∧
        lookupTex st2 texId = some tex := by
  have h4 : ¬ 4 ≤ slot := by omega
  simp only [lookupFb, lookupTex] at hfb htex
  have htex_eq : ({ tex with fb := none } : GPUTexture) = tex := by
    cases tex
    simp_all
  cases hd : tex.depth with
  | true =>
    rw [hd] at hempty
    simp only [if_pos] at hempty
    have hfb_eq : ({ fb with depthtex := none } : GPUFrameBuffer) = fb := by
      cases fb
      simp_all
    refine ⟨{ st with currentfb := fb.object,
                      framebuffers := setk fbId { fb with depthtex := some texId } st.framebuffers,
                      textures := setk texId { tex with fb := some (fbId, slot) } st.textures },
      ?_, ?_⟩
    · simp [GPU_framebuffer_texture_attach_target, if_neg h4, lookupFb, lookupTex,
        hfb, htex, hd]
    · refine ⟨{ st with currentfb := fb.object,
                        framebuffers := setk fbId { fb with depthtex := none }
                          (setk fbId { fb with depthtex := some texId } st.framebuffers),
                        textures := setk texId { tex with fb := none }
                          (setk texId { tex with fb := some (fbId, slot) } st.textures) },
        ?_, ?_, ?_⟩
      · cases hst : tex.stencil <;>
          simp [GPU_framebuffer_texture_detach_target, lookupTex, lookupFb,
            lookupA_setk_self, hd, hst]
      · simp [lookupFb, lookupA_setk_self, hfb_eq]
      · simp [lookupTex, lookupA_setk_self, htex_eq]
  | false =>
    rw [hd] at hempty
    simp only [Bool.false_eq_true, if_false] at hempty
    refine ⟨{ st with currentfb := fb.object,
                      framebuffers := setk fbId
                        { fb with colortex := fb.colortex.set slot (some texId) } st.framebuffers,
                      textures := setk texId { tex with fb := some (fbId, slot) } st.textures },
      ?_, ?_⟩
    · simp [GPU_framebuffer_texture_attach_target, if_neg h4, lookupFb, lookupTex,
        hfb, htex, hd]
    · have hget : (fb.colortex.set slot (some texId)).get slot = some texId :=
        ColorSlots.get_set_self fb.colortex slot (some texId) hslot
      have hrestore : (fb.colortex.set slot (some texId)).set slot none = fb.colortex := by
        rw [ColorSlots.set_set]
        exact ColorSlots.set_eq_self fb.colortex slot none hempty
      refine ⟨{ st with currentfb := fb.object,
                        framebuffers := setk fbId
                          { fb with colortex := (fb.colortex.set slot (some texId)).set slot none }
                          (setk fbId { fb with colortex := fb.colortex.set slot (some texId) }
                            st.framebuffers),
                        textures := setk texId { tex with fb := none }
                          (setk texId { tex with fb := some (fbId, slot) } st.textures) },
        ?_, ?_, ?_⟩
      · cases hst : tex.stencil <;>
          simp [GPU_framebuffer_texture_detach_target, lookupTex, lookupFb,
            lookupA_setk_self, hd, hst, hget]
      · simp [lookupFb, lookupA_setk_self, hrestore]
      · simp [lookupTex, lookupA_setk_self, htex_eq]

theorem attach_detach_roundtrip_witness :
    ∃ st1, GPU_framebuffer_texture_attach_target
        (mkState [(1, texC 16 16 none)] [] [(7, emptyFB 7)] 0) 7 1 GL_TEXTURE_2D 2 0
        = some (true, st1) ∧
      ∃ st2, GPU_framebuffer_texture_detach_target st1 1 GL_TEXTURE_2D = some st2 ∧
        lookupFb st2 7 = some (emptyFB 7) ∧
        lookupTex st2 1 = some (texC 16 16 none) :=
  attach_detach_roundtrip (mkState [(1, texC 16 16 none)] [] [(7, emptyFB 7)] 0)
    7 1 GL_TEXTURE_2D 2 0 (emptyFB 7) (texC 16 16 none)
    (by decide) (by decide) (by decide) (by decide) (by decide)

/-! ## C1: re-attaching an already-attached surface -/

/-- State for the re-parenting scenario: texture 1 is attached to
framebuffer 10 at slot 0, framebuffer 20 is empty. -/
def stC1 : GPUState :=
  mkState [(1, texC 8 8 (some (10, 0)))] []
    [(10, { emptyFB 10 with colortex := ⟨some 1, none, none, none⟩ }),
     (20, emptyFB 20)] 0

/-- C1 counterexample: texture 1 is attached to framebuffer 10 at slot 0;
after attaching it to framebuffer 20 at slot 2 its back-reference is
`(20, 2)`, but framebuffer 10's slot 0 still holds texture 1 — it is not
empty, contradicting the claim that re-parenting empties the former
owner's slot (and with it the stated agreement invariant). -/
theorem reparent_keeps_old_slot_cex :
    (lookupFb stC1 10).map (fun f => f.colortex.s0) = some (some 1) ∧
    ((GPU_framebuffer_texture_attach_target stC1 20 1 GL_TEXTURE_2D 2 0).map
        (fun p => ((lookupFb p.2 10).map (fun f => f.colortex.s0),
                   (lookupTex p.2 1).map GPUTexture.fb)))
      = some (some (some 1), some (some (20, 2))) ∧
    some (some 1) ≠ (some (none) : Option (Option Nat)) := by
  decide

/-- C1 (amended): attaching a surface that is already attached to another
target `T1` updates the surface's back-reference to `(T2, slot2)`, but
leaves `T1` — including its former forward slot entry, which still holds
the surface — completely unchanged. -/
theorem reparent_updates_backref_only (st : GPUState)
    (fb1 fb2 texId slot1 slot2 target mip : Nat)
    (fb1r fb2r : GPUFrameBuffer) (tex : GPUTexture)
    (h12 : fb1 ≠ fb2)
    (hfb1 : lookupFb st fb1 = some fb1r)
    (hfb2 : lookupFb st fb2 = some fb2r)
    (htex : lookupTex st texId = some tex)
    (hatt : tex.fb = some (fb1, slot1))
    (hfwd : fb1r.colortex.get slot1 = some texId)
    (hdepth : tex.depth = false)
    (hslot : slot2 < 4) :
    ∃ st', GPU_framebuffer_texture_attach_target st fb2 texId target slot2 mip
        = some (true, st') ∧
      lookupTex st' texId = some { tex with fb := some (fb2, slot2) } ∧
      lookupFb st' fb1 = some fb1r ∧
      fb1r.colortex.get slot1 = some texId := by
  have h4 : ¬ 4 ≤ slot2 := by omega
  simp only [lookupFb, lookupTex] at hfb1 hfb2 htex
  refine ⟨{ st with currentfb := fb2r.object,
                    framebuffers := setk fb2
                      { fb2r with colortex := fb2r.colortex.set slot2 (some texId) }
                      st.framebuffers,
                    textures := setk texId { tex with fb := some (fb2, slot2) } st.textures },
    ?_, ?_, ?_, hfwd⟩
  · simp [GPU_framebuffer_texture_attach_target, if_neg h4, lookupFb, lookupTex,
      hfb2, htex, hdepth]
  · simp [lookupTex, lookupA_setk_self]
  · have : fb2 ≠ fb1 := fun he => h12 he.symm
    simp [lookupFb, lookupA_setk_ne _ _ _ _ this, hfb1]

theorem reparent_updates_backref_only_witness :
    ∃ st', GPU_framebuffer_texture_attach_target stC1 20 1 GL_TEXTURE_2D 2 0
        = some (true, st') ∧
      lookupTex st' 1 = some { texC 8 8 (some (10, 0)) with fb := some (20, 2) } ∧
      lookupFb st' 10 = some { emptyFB 10 with colortex := ⟨some 1, none, none, none⟩ } ∧
      ({ emptyFB 10 with colortex := ⟨some 1, none, none, none⟩ }).colortex.get 0 = some 1 :=
  reparent_updates_backref_only stC1 10 20 1 0 2 GL_TEXTURE_2D 0
    { emptyFB 10 with colortex := ⟨some 1, none, none, none⟩ } (emptyFB 20)
    (texC 8 8 (some (10, 0)))
    (by decide) (by decide) (by decide) (by decide) (by decide) (by decide)
    (by decide) (by decide)

/-! ## C3 / C9: GPU_framebuffer_bind -/

/-- Membership in the occupied-slot list coincides with the slot array. -/
theorem occupiedColor_mem_get (cs : ColorSlots) (q : Nat × Nat)
    (h : q ∈ occupiedColor cs) : cs.get q.1 = some q.2 := by
  obtain ⟨s0, s1, s2, s3⟩ := cs
  cases s0 <;> cases s1 <;> cases s2 <;> cases s3 <;>
    simp [occupiedColor] at h <;>
    (rcases h with rfl | rfl | rfl | rfl <;> rfl)

/-- State for the bind scenario: framebuffer 7 has a 10×10 texture at
color slot 0 and a 20×20 texture at color slot 1. -/
def stC3 : GPUState :=
  mkState [(1, texC 10 10 (some (7, 0))), (2, texC 20 20 (some (7, 1)))] []
    [(7, { emptyFB 7 with colortex := ⟨some 1, some 2, none, none⟩ })] 0

/-- C3 counterexample: the first occupied color slot of framebuffer 7
holds the 10×10 texture, yet `GPU_framebuffer_bind` sets the viewport to
20×20 — the dimensions of the texture in the *last* occupied slot (the
loop variable `tex` is overwritten on every occupied slot), not of the
first relevant surface as claimed. -/
theorem bind_viewport_not_first_cex :
    (lookupFb stC3 7).map (fun f => f.colortex.s0) = some (some 1) ∧
    (lookupTex stC3 1).map (fun t => (t.width, t.height)) = some (10, 10) ∧
    (GPU_framebuffer_bind stC3 7).map GPUState.viewport = some (20, 20) ∧
    ((20, 20) : Nat × Nat) ≠ (10, 10) := by
  decide

/-- C3 (amended): with at least one occupied color slot,
`GPU_framebuffer_bind` sets the draw-buffer list to exactly the occupied
color slots in ascending index order, the read buffer to the first
occupied slot, the viewport to the dimensions of the texture in the
*last* occupied slot, and records the target as bound; with no occupied
color slot and a depth texture attached, it selects no draw or read
buffer and takes the viewport from the depth texture. -/
theorem framebuffer_bind_spec (st : GPUState) (fbId : Nat) (fb : GPUFrameBuffer)
    (hfb : lookupFb st fbId = some fb) :
    (∀ p rest ltex,
      occupiedColor fb.colortex = p :: rest →
      lookupTex st ((p :: rest).getLast (List.cons_ne_nil p rest)).2 = some ltex →
      GPU_framebuffer_bind st fbId = some { st with
        currentfb := fb.object,
        drawBuffers := (p :: rest).map (fun q => GL_COLOR_ATTACHMENT0 + q.1),
        readBuffer := GL_COLOR_ATTACHMENT0 + p.1,
        viewport := (ltex.width, ltex.height) }) ∧
    (∀ d dtex,
      occupiedColor fb.colortex = [] →
      fb.depthtex = some d →
      lookupTex st d = some dtex →
      GPU_framebuffer_bind st fbId = some { st with
        currentfb := fb.object,
        drawBuffers := [], readBuffer := GL_NONE,
        viewport := (dtex.width, dtex.height) }) := by
  simp only [lookupFb, lookupTex] at hfb
  constructor
  · intro p rest ltex hocc hlast
    simp only [lookupTex] at hlast
    simp [GPU_framebuffer_bind, lookupFb, lookupTex, hfb, hocc, hlast]
  · intro d dtex hocc hdepth hd
    simp only [lookupTex] at hd
    simp [GPU_framebuffer_bind, lookupFb, lookupTex, hfb, hocc, hdepth, hd]

/-- Depth-only bind fixture: framebuffer 8 has only a 12×9 depth
texture. -/
def stC3d : GPUState :=
  mkState [(5, texD 12 9 (some (8, 0)))] []
    [(8, { emptyFB 8 with depthtex := some 5 })] 0

theorem framebuffer_bind_spec_witness :
    GPU_framebuffer_bind stC3 7 = some { stC3 with
      currentfb := 7,
      drawBuffers := [GL_COLOR_ATTACHMENT0, GL_COLOR_ATTACHMENT0 + 1],
      readBuffer := GL_COLOR_ATTACHMENT0,
      viewport := (20, 20) } ∧
    GPU_framebuffer_bind stC3d 8 = some { stC3d with
      currentfb := 8,
      drawBuffers := [], readBuffer := GL_NONE,
      viewport := (12, 9) } := by
  constructor
  · have h := (framebuffer_bind_spec stC3 7
      { emptyFB 7 with colortex := ⟨some 1, some 2, none, none⟩ } (by decide)).1
      (0, 1) [(1, 2)] (texC 20 20 (some (7, 1))) (by decide) (by decide)
    exact h.trans (by decide)
  · have h := (framebuffer_bind_spec stC3d 8
      { emptyFB 8 with depthtex := some 5 } (by decide)).2
      5 (texD 12 9 (some (8, 0))) (by decide) (by decide) (by decide)
    exact h.trans (by decide)

/-- C9: under a well-formed heap, `GPU_framebuffer_bind` has no defined
result exactly when no color slot is occupied and no depth texture is
attached — the viewport read then dereferences a NULL surface pointer —
so the operation is safe precisely under the precondition that at least
one color texture or a depth texture is attached. -/
theorem framebuffer_bind_safety (st : GPUState) (fbId : Nat) (fb : GPUFrameBuffer)
    (hfb : lookupFb st fbId = some fb)
    (hwfC : ∀ i t, fb.colortex.get i = some t → (lookupTex st t).isSome = true)
    (hwfD : ∀ t, fb.depthtex = some t → (lookupTex st t).isSome = true) :
    (GPU_framebuffer_bind st fbId = none ↔
      (occupiedColor fb.colortex = [] ∧ fb.depthtex = none)) := by
  simp only [lookupFb, lookupTex] at hfb hwfC hwfD
  cases hocc : occupiedColor fb.colortex with
  | nil =>
    cases hdepth : fb.depthtex with
    | none =>
      simp [GPU_framebuffer_bind, lookupFb, hfb, hocc, hdepth]
    | some d =>
      have hd := hwfD d hdepth
      rw [Option.isSome_iff_exists] at hd
      obtain ⟨dtex, hd⟩ := hd
      simp [GPU_framebuffer_bind, lookupFb, lookupTex, hfb, hocc, hdepth, hd]
  | cons p rest =>
    have hmem : (p :: rest).getLast (List.cons_ne_nil p rest) ∈ occupiedColor fb.colortex := by
      rw [hocc]
      exact List.getLast_mem (List.cons_ne_nil p rest)
    have hget := occupiedColor_mem_get fb.colortex _ hmem
    have hl := hwfC _ _ hget
    rw [Option.isSome_iff_exists] at hl
    obtain ⟨ltex, hl⟩ := hl
    simp [GPU_framebuffer_bind, lookupFb, lookupTex, hfb, hocc, hl]

/-- Unattached framebuffer fixture for the unsafe case of C9. -/
def stC9 : GPUState := mkState [] [] [(9, emptyFB 9)] 0

theorem framebuffer_bind_safety_witness :
    (GPU_framebuffer_bind stC9 9 = none ↔
      (occupiedColor (emptyFB 9).colortex = [] ∧ (emptyFB 9).depthtex = none)) :=
  framebuffer_bind_safety stC9 9 (emptyFB 9) (by decide)
    (by intro i t h; revert h; cases i with
        | zero => exact fun h => by simp [emptyFB, ColorSlots.empty, ColorSlots.get] at h
        | succ n => cases n with
          | zero => exact fun h => by simp [emptyFB, ColorSlots.empty, ColorSlots.get] at h
          | succ m => cases m with
            | zero => exact fun h => by simp [emptyFB, ColorSlots.empty, ColorSlots.get] at h
            | succ l => cases l with
              | zero => exact fun h => by simp [emptyFB, ColorSlots.empty, ColorSlots.get] at h
              | succ o => exact fun h => by simp [ColorSlots.get] at h)
    (by intro t h; simp [emptyFB] at h)

/-! ## C2: GPU_offscreen_create and its backing-surface attachment -/

/-- A device granting every capability and reporting completeness. -/
def devAll : GLDevice :=
  { ext_framebuffer_multisample := true, arb_texture_multisample := true,
    ext_framebuffer_blit := true, fbStatus := GL_FRAMEBUFFER_COMPLETE }

/-- A pristine state: empty heaps, default binding, allocator at 0. -/
def st0 : GPUState :=
  { textures := [], renderbuffers := [], framebuffers := [], currentfb := 0,
    drawBuffers := [], readBuffer := GL_NONE, viewport := (0, 0), blits := [], nextId := 0 }

/-- C2 (code bug): on every mode involving a texture-backed surface,
`GPU_offscreen_create` dereferences NULL — the texture-color branch
passes `ofs->depth` (still NULL) to `GPU_framebuffer_texture_attach` and
the texture-depth branch passes `ofs->color` — so creation has no defined
result even on a fully capable device, and the depth texture is never
attached; only the pure renderbuffer mode attaches each backing surface
at slot 0 as the claim describes. -/
theorem offscreen_create_texture_mode_crash :
    GPU_offscreen_create devAll st0 64 64 0 ⟨false, false, false⟩ = none ∧
    GPU_offscreen_create devAll st0 64 64 0 ⟨true, false, false⟩ = none ∧
    GPU_offscreen_create devAll st0 64 64 0 ⟨false, true, false⟩ = none ∧
    (GPU_offscreen_create devAll st0 64 64 0 ⟨true, true, false⟩).map
        (fun p => (p.1.map (fun o => (o.rbcolor, o.rbdepth)),
                   (lookupFb p.2 1).map (fun f => (f.colorrb.s0, f.depthrb))))
      = some (some (some 2, some 3), some (some 2, some 3)) := by
  decide

/-! ## C5: GPU_offscreen_blit -/

/-- `GPU_offscreen_width` only reads the texture and renderbuffer heaps. -/
theorem GPU_offscreen_width_congr (st st' : GPUState) (ofs : GPUOffScreen)
    (ht : st'.textures = st.textures) (hr : st'.renderbuffers = st.renderbuffers) :
    GPU_offscreen_width st' ofs = GPU_offscreen_width st ofs := by
  unfold GPU_offscreen_width lookupTex lookupRb
  rw [ht, hr]

/-- `GPU_offscreen_height` only reads the texture and renderbuffer heaps. -/
theorem GPU_offscreen_height_congr (st st' : GPUState) (ofs : GPUOffScreen)
    (ht : st'.textures = st.textures) (hr : st'.renderbuffers = st.renderbuffers) :
    GPU_offscreen_height st' ofs = GPU_offscreen_height st ofs := by
  unfold GPU_offscreen_height lookupTex lookupRb
  rw [ht, hr]

/-- C5: with both copy flags false, `GPU_offscreen_blit` fails on
`BLI_assert(color || depth)` before any pixel copy; with at least one
flag set it copies one rectangle whose width and height are the minima of
the two contexts' widths and heights (no stretch) and finishes by binding
the destination's own framebuffer, which stays recorded as the current
binding. -/
theorem offscreen_blit_spec (st : GPUState) (src dst : GPUOffScreen) (c d : Bool)
    (sF dF : Nat) (sFb dFb : GPUFrameBuffer) (sw sh dw dh : Nat)
    (hsf : src.fb = some sF) (hdf : dst.fb = some dF)
    (hsl : lookupFb st sF = some sFb)
    (hdl : lookupFb st dF = some dFb)
    (hsw : GPU_offscreen_width st src = some sw)
    (hsh : GPU_offscreen_height st src = some sh)
    (hdw : GPU_offscreen_width st dst = some dw)
    (hdh : GPU_offscreen_height st dst = some dh) :
    GPU_offscreen_blit st src dst false false = none ∧
    ((c || d) = true →
      GPU_offscreen_blit st src dst c d = some { st with
        drawBuffers := [GL_COLOR_ATTACHMENT0],
        readBuffer := GL_COLOR_ATTACHMENT0,
        blits := { srcW := Nat.min sw dw, srcH := Nat.min sh dh,
                   dstW := Nat.min sw dw, dstH := Nat.min sh dh,
                   mask := blitMask c d } :: st.blits,
        currentfb := dFb.object }) := by
  constructor
  · simp [GPU_offscreen_blit]
  · intro hcd
    have hW : GPU_offscreen_width
        { st with drawBuffers := [GL_COLOR_ATTACHMENT0], readBuffer := GL_COLOR_ATTACHMENT0 }
        src = some sw :=
      (GPU_offscreen_width_congr st
        { st with drawBuffers := [GL_COLOR_ATTACHMENT0], readBuffer := GL_COLOR_ATTACHMENT0 }
        src rfl rfl).trans hsw
    have hH : GPU_offscreen_height
        { st with drawBuffers := [GL_COLOR_ATTACHMENT0], readBuffer := GL_COLOR_ATTACHMENT0 }
        src = some sh :=
      (GPU_offscreen_height_congr st
        { st with drawBuffers := [GL_COLOR_ATTACHMENT0], readBuffer := GL_COLOR_ATTACHMENT0 }
        src rfl rfl).trans hsh
    have hW' : GPU_offscreen_width
        { st with drawBuffers := [GL_COLOR_ATTACHMENT0], readBuffer := GL_COLOR_ATTACHMENT0 }
        dst = some dw :=
      (GPU_offscreen_width_congr st
        { st with drawBuffers := [GL_COLOR_ATTACHMENT0], readBuffer := GL_COLOR_ATTACHMENT0 }
        dst rfl rfl).trans hdw
    have hH' : GPU_offscreen_height
        { st with drawBuffers := [GL_COLOR_ATTACHMENT0], readBuffer := GL_COLOR_ATTACHMENT0 }
        dst = some dh :=
      (GPU_offscreen_height_congr st
        { st with drawBuffers := [GL_COLOR_ATTACHMENT0], readBuffer := GL_COLOR_ATTACHMENT0 }
        dst rfl rfl).trans hdh
    simp only [lookupFb] at hsl hdl
    simp [GPU_offscreen_blit, hcd, hsf, hdf, hsl, hdl, hW, hH, hW', hH',
      GPU_framebuffer_bind_simple, lookupFb]

/-- Blit fixture: two texture-backed offscreen contexts, 30×20 source and
25×40 destination. -/
def stC5 : GPUState :=
  mkState [(1, texC 30 20 (some (7, 0))), (2, texC 25 40 (some (8, 0)))] []
    [(7, { emptyFB 7 with colortex := ⟨some 1, none, none, none⟩ }),
     (8, { emptyFB 8 with colortex := ⟨some 2, none, none, none⟩ })] 0

def ofsSrcC5 : GPUOffScreen :=
  { fb := some 7, color := some 1, depth := none, rbcolor := none, rbdepth := none, samples := 0 }

def ofsDstC5 : GPUOffScreen :=
  { fb := some 8, color := some 2, depth := none, rbcolor := none, rbdepth := none, samples := 0 }

theorem offscreen_blit_spec_witness :
    GPU_offscreen_blit stC5 ofsSrcC5 ofsDstC5 false false = none ∧
    GPU_offscreen_blit stC5 ofsSrcC5 ofsDstC5 true false = some { stC5 with
      drawBuffers := [GL_COLOR_ATTACHMENT0],
      readBuffer := GL_COLOR_ATTACHMENT0,
      blits := [{ srcW := 25, srcH := 20, dstW := 25, dstH := 20,
                  mask := GL_COLOR_BUFFER_BIT }],
      currentfb := 8 } := by
  have h := offscreen_blit_spec stC5 ofsSrcC5 ofsDstC5 true false 7 8
    { emptyFB 7 with colortex := ⟨some 1, none, none, none⟩ }
    { emptyFB 8 with colortex := ⟨some 2, none, none, none⟩ }
    30 20 25 40 rfl rfl (by decide) (by decide) (by decide) (by decide)
    (by decide) (by decide)
  exact ⟨h.1, (h.2 rfl).trans (by decide)⟩

/-! ## C4: multisample capability clamp in GPU_offscreen_create -/

/-- Any offscreen object actually produced by the create body carries the
sample count the body was given. -/
theorem offscreen_create_body_samples (dev : GLDevice) (st : GPUState)
    (width height samples : Nat) (mode : OffscreenMode) :
    ∀ ofs st', GPU_offscreen_create_body dev st width height samples mode
        = some (some ofs, st') → ofs.samples = samples := by
  intro ofs st' hh
  obtain ⟨rc, rd, dc⟩ := mode
  cases rc <;> cases rd
  · simp [GPU_offscreen_create_body, GPU_framebuffer_create,
      GPU_texture_create_2D_custom, GPU_framebuffer_texture_attach,
      lookupTex, lookupA] at hh
  · simp [GPU_offscreen_create_body, GPU_framebuffer_create,
      GPU_texture_create_2D_custom, GPU_framebuffer_texture_attach,
      lookupTex, lookupA] at hh
  · simp [GPU_offscreen_create_body, GPU_framebuffer_create, GPU_renderbuffer_create,
      GPU_framebuffer_renderbuffer_attach, GPU_offscreen_create_depth,
      GPU_texture_create_depth_multisample, GPU_framebuffer_texture_attach,
      lookupFb, lookupRb, lookupTex, lookupA, setk] at hh
  · simp [GPU_offscreen_create_body, GPU_framebuffer_create, GPU_renderbuffer_create,
      GPU_framebuffer_renderbuffer_attach, GPU_offscreen_create_depth,
      GPU_offscreen_create_finish, GPU_framebuffer_check_valid, GPU_framebuffer_restore,
      lookupFb, lookupRb, lookupTex, lookupA, setk] at hh
    split at hh
    · simp at hh
    · next ok st1 heq =>
      split at heq
      · simp only [Option.some.injEq, Prod.mk.injEq] at heq
        obtain ⟨hok, hst⟩ := heq
        subst hok
        simp at hh
        obtain ⟨h1, -⟩ := hh
        rw [← h1]
      · simp only [Option.some.injEq, Prod.mk.injEq] at heq
        obtain ⟨hok, hst⟩ := heq
        subst hok
        simp only [Bool.false_eq_true, if_false] at hh
        rw [Option.map_eq_some'] at hh
        obtain ⟨a, -, hab⟩ := hh
        simp at hab

/-- C4: when the device lacks the required multisample capability
combination (no multisample-renderbuffer support, or no
multisample-texture support while a texture-backed mode is involved, or
no blit support), a creation request with `samples > 0` behaves exactly
like one with `samples = 0` — it does not fail for that reason — and any
object it produces answers `GPU_offscreen_samples` with 0. -/
theorem offscreen_samples_clamped (dev : GLDevice) (st : GPUState)
    (width height samples : Nat) (mode : OffscreenMode)
    (hs : samples ≠ 0)
    (hlack : (!dev.ext_framebuffer_multisample ||
              (!dev.arb_texture_multisample && (!mode.rbColor || !mode.rbDepth)) ||
              !dev.ext_framebuffer_blit) = true) :
    GPU_offscreen_create dev st width height samples mode
      = GPU_offscreen_create dev st width height 0 mode ∧
    ∀ ofs st', GPU_offscreen_create dev st width height samples mode
        = some (some ofs, st') → GPU_offscreen_samples ofs = 0 := by
  have hclamp : gpu_offscreen_clamp_samples dev mode samples = 0 := by
    simp [gpu_offscreen_clamp_samples, hs, hlack]
  have hclamp0 : gpu_offscreen_clamp_samples dev mode 0 = 0 := by
    simp [gpu_offscreen_clamp_samples]
  constructor
  · unfold GPU_offscreen_create
    rw [hclamp, hclamp0]
  · intro ofs st' hcr
    unfold GPU_offscreen_create at hcr
    rw [hclamp] at hcr
    simpa [GPU_offscreen_samples] using
      offscreen_create_body_samples dev st width height 0 mode ofs st' hcr

/-- A device lacking blit support (one of the capability combinations of
C4), otherwise fully functional. -/
def devNoBlit : GLDevice :=
  { ext_framebuffer_multisample := true, arb_texture_multisample := true,
    ext_framebuffer_blit := false, fbStatus := GL_FRAMEBUFFER_COMPLETE }

theorem offscreen_samples_clamped_witness :
    GPU_offscreen_create devNoBlit st0 4 4 8 ⟨true, true, false⟩
      = GPU_offscreen_create devNoBlit st0 4 4 0 ⟨true, true, false⟩ ∧
    (GPU_offscreen_create devNoBlit st0 4 4 8 ⟨true, true, false⟩).map
        (fun p => p.1.map GPU_offscreen_samples) = some (some 0) :=
  ⟨(offscreen_samples_clamped devNoBlit st0 4 4 8 ⟨true, true, false⟩
      (by decide) (by decide)).1,
   by decide⟩

/-! ## C8: GPU_framebuffer_free -/

/-- A counterexample state for C8: framebuffer 10 is currently bound
(`currentfb = 10`), framebuffer 20 has one color texture attached. -/
def stC8cex : GPUState :=
  mkState [(1, texC 4 4 (some (20, 0)))] []
    [(10, emptyFB 10),
     (20, { emptyFB 20 with colortex := ⟨some 1, none, none, none⟩ })] 10

/-- C8 counterexample: freeing framebuffer 20 while framebuffer 10 is the
currently bound one still resets the bind state to "none" (0), because
the forced detach re-binds the framebuffer being freed before the handle
comparison — so the reset does not happen exactly when the freed handle
equals the currently-bound handle. -/
theorem free_resets_bind_state_cex :
    stC8cex.currentfb = 10 ∧ (10 : Nat) ≠ 20 ∧
    (GPU_framebuffer_free stC8cex 20).map GPUState.currentfb = some 0 := by
  decide

/-- The heap family for C8: five textures (four color, one depth), a
framebuffer whose first `k` color slots (`k ≤ 4`) and, when `bd` is set,
depth slot are occupied by them, and an arbitrary prior bind state. -/
def stFree (cfb k : Nat) (bd : Bool)
    (tx0 tx1 tx2 tx3 txd : GPUTexture) : GPUState :=
  mkState [(1, tx0), (2, tx1), (3, tx2), (4, tx3), (5, txd)] []
    [(20, { object := 20,
            colortex := ⟨if 0 < k then some 1 else none, if 1 < k then some 2 else none,
                         if 2 < k then some 3 else none, if 3 < k then some 4 else none⟩,
            depthtex := if bd then some 5 else none,
            colorrb := ColorSlots.empty, depthrb := none })] cfb

set_option maxHeartbeats 4000000 in
/-- C8 (amended): freeing a target with `k` occupied color slots
(`0 ≤ k ≤ 4`) and an optionally occupied depth slot succeeds (also with
no attachments at all), leaves the back-reference of every previously
attached surface empty and every unattached surface untouched, removes
the target, and resets the bind state to "none" exactly when the target
had at least one attachment (the forced detaches re-bind it) or the
freed handle was already the bound one; otherwise the bind state is
unchanged. -/
theorem framebuffer_free_spec (cfb k : Nat) (bd : Bool)
    (tx0 tx1 tx2 tx3 txd : GPUTexture)
    (hk : k ≤ 4)
    (h0 : tx0.fb = some (20, 0)) (h0d : tx0.depth = false)
    (h1 : tx1.fb = some (20, 1)) (h1d : tx1.depth = false)
    (h2 : tx2.fb = some (20, 2)) (h2d : tx2.depth = false)
    (h3 : tx3.fb = some (20, 3)) (h3d : tx3.depth = false)
    (h5 : txd.fb = some (20, 0)) (h5d : txd.depth = true) :
    (GPU_framebuffer_free (stFree cfb k bd tx0 tx1 tx2 tx3 txd) 20).map
        (fun s => (lookupFb s 20, lookupTex s 1, lookupTex s 2, lookupTex s 3,
                   lookupTex s 4, lookupTex s 5, s.currentfb))
      = some (none,
          (if 0 < k then some { tx0 with fb := none } else some tx0),
          (if 1 < k then some { tx1 with fb := none } else some tx1),
          (if 2 < k then some { tx2 with fb := none } else some tx2),
          (if 3 < k then some { tx3 with fb := none } else some tx3),
          (if bd then some { txd with fb := none } else some txd),
          (if 0 < k ∨ bd = true ∨ cfb = 20 then 0 else cfb)) := by
  interval_cases k <;> cases bd <;>
    simp [stFree, mkState, GPU_framebuffer_free, freeStepTex, freeStepRb,
      GPU_framebuffer_texture_detach, GPU_framebuffer_texture_detach_target,
      GPU_framebuffer_renderbuffer_detach,
      lookupFb, lookupTex, lookupA, setk, removek,
      ColorSlots.get, ColorSlots.set, ColorSlots.empty,
      h0, h0d, h1, h1d, h2, h2d, h3, h3d, h5, h5d] <;>
    by_cases hc : cfb = 20 <;> simp [hc, lookupA]

theorem framebuffer_free_spec_witness :
    (GPU_framebuffer_free
        (stFree 11 2 true (texC 4 4 (some (20, 0)))
          (texC 4 4 (some (20, 1))) (texC 4 4 (some (20, 2))) (texC 4 4 (some (20, 3)))
          (texD 4 4 (some (20, 0)))) 20).map
        (fun s => (lookupFb s 20, lookupTex s 1, lookupTex s 2, lookupTex s 3,
                   lookupTex s 4, lookupTex s 5, s.currentfb))
      = some (none,
          (if 0 < 2 then some { texC 4 4 (some (20, 0)) with fb := none }
           else some (texC 4 4 (some (20, 0)))),
          (if 1 < 2 then some { texC 4 4 (some (20, 1)) with fb := none }
           else some (texC 4 4 (some (20, 1)))),
          (if 2 < 2 then some { texC 4 4 (some (20, 2)) with fb := none }
           else some (texC 4 4 (some (20, 2)))),
          (if 3 < 2 then some { texC 4 4 (some (20, 3)) with fb := none }
           else some (texC 4 4 (some (20, 3)))),
          (if true then some { texD 4 4 (some (20, 0)) with fb := none }
           else some (texD 4 4 (some (20, 0)))),
          (if 0 < 2 ∨ true = true ∨ (11 : Nat) = 20 then 0 else 11)) :=
  framebuffer_free_spec 11 2 true
    (texC 4 4 (some (20, 0))) (texC 4 4 (some (20, 1))) (texC 4 4 (some (20, 2)))
    (texC 4 4 (some (20, 3))) (texD 4 4 (some (20, 0)))
    (by decide) (by decide) (by decide) (by decide) (by decide) (by decide)
    (by decide) (by decide) (by decide) (by decide) (by decide)
